import Mathlib

/-!
Shallow embedding of `src/app.js` (a mongoose change-stream consumer with
resume-token checkpointing).

The program keeps a module-level variable `lastResumeToken` (app.js line 20),
modelled as `Option Nat`: `none` is the JS `null`, and resume tokens — the
`change._id` values — are treated as abstract values modelled by `Nat`.

The event-driven handlers registered on the change stream (lines 30, 40, 68)
are modelled as pure functions from the stream's signal sequence to the
updated token together with a trace of observable actions: subscribe calls,
consumer-callback invocations, warning-level logs, stream closes, scheduled
retries, disconnects, process exit.  Plain informational `console.log` lines
are not modelled as observable actions; the warning-level `console.warn` calls
of the error handler are, as are all resource operations.
-/

namespace App

/-- Fields of the MongoDB error object that the error handler inspects
(app.js lines 40-58): a numeric `code`, a `codeName` string, a message. -/
structure MongoError where
  code : Nat
  codeName : String
  message : String
deriving DecidableEq

/-- A change event as consumed by the change handler (app.js lines 30-38):
its `operationType` and its `_id`, which is the resume token of the event. -/
structure ChangeEvent where
  operationType : String
  id : Nat
deriving DecidableEq

/-- The options object passed to `MessageModel.watch` on app.js line 28:
either the empty object — no `resumeAfter` key at all — or an object whose
single `resumeAfter` field holds a token (line 26 builds exactly these two
shapes; `resumeAfter: null` is never constructed). -/
inductive SubscribeOptions
  | empty
  | withResumeAfter (token : Nat)
deriving DecidableEq

/-- App.js line 26: `const options = lastResumeToken ? ... : ...`.
`lastResumeToken` is either `null` or a BSON ObjectId-like token object,
which is always truthy, so the ternary tests presence of the token. -/
def mkOptions : Option Nat → SubscribeOptions
  | some t => SubscribeOptions.withResumeAfter t
  | none => SubscribeOptions.empty

/-- Reads the `resumeAfter` key back out of an options value
(`none` means the key is absent from the object). -/
def resumeAfterKey : SubscribeOptions → Option Nat
  | SubscribeOptions.empty => none
  | SubscribeOptions.withResumeAfter t => some t

/-- Signals a live change stream can emit to its registered handlers
(app.js lines 30, 40, 68). -/
inductive StreamSignal
  | change (ev : ChangeEvent)
  | error (e : MongoError)
  | close
deriving DecidableEq

/-- Observable actions of the program, in execution order. -/
inductive Action
  /-- `MessageModel.watch(pipeline, options)` — app.js line 28. -/
  | subscribe (opts : SubscribeOptions)
  /-- The consumer callback (the event-consumption logging of lines 31-33)
  runs on a delivered event. -/
  | deliver (ev : ChangeEvent)
  /-- `console.warn` for history loss — app.js line 54. -/
  | warnHistoryLost
  /-- `console.warn` announcing a re-establish attempt — app.js line 57. -/
  | warnRetry
  /-- `changeStream.close()` — app.js line 61 (also line 105). -/
  | closeStream
  /-- The close handler ran (store-initiated close) — app.js lines 68-72. -/
  | closedEvent
  /-- `setTimeout(setupChangeStream, 5000)` — app.js line 64. -/
  | scheduleRetry (delayMs : Nat)
  /-- `mongoose.disconnect()` — app.js lines 108 and 117. -/
  | disconnect
  /-- A rejection of `mongoose.disconnect()` was caught and logged
  — app.js line 117. -/
  | logDisconnectError
  /-- `process.exit(0)` — app.js line 118. -/
  | exitProcess
deriving DecidableEq

/-- The codeName the error handler tests on app.js line 53. -/
def historyLostCodeName : String := "ChangeStreamHistoryLost"

/-- The delay passed to `setTimeout` on app.js line 64, in milliseconds. -/
def retryDelayMs : Nat := 5000

/-- The configured fixed retry interval of the design: 5 time units, i.e.
5 seconds = 5000 ms. -/
def fixedRetryIntervalMs : Nat := 5000

/-- App.js lines 53-58: on `ChangeStreamHistoryLost`, warn about history loss
and clear the token (line 55); on any other error, warn that the stream will
be re-established and keep the token.  Returns the new token and the
warning-level action emitted. -/
def classifyStep (token : Option Nat) (e : MongoError) : Option Nat × Action :=
  if e.codeName = historyLostCodeName then (none, Action.warnHistoryLost)
  else (token, Action.warnRetry)

/-- App.js lines 40-66, the error handler: run the history-loss check
(lines 53-58), close the errored stream unless it is already closed
(lines 60-62; a failure of the close call is caught and only logged), then
schedule `setupChangeStream` to run after 5000 ms (line 64). -/
def handleError (alreadyClosed : Bool) (token : Option Nat) (e : MongoError) :
    Option Nat × List Action :=
  let s := classifyStep token e
  (s.1, [s.2] ++ (if alreadyClosed then [] else [Action.closeStream])
      ++ [Action.scheduleRetry retryDelayMs])

/-- How one session (one live change stream) terminates. -/
inductive SessionOutcome
  /-- Ended through the error handler; a retry is pending. -/
  | retryScheduled
  /-- The close event fired with no error; the close handler (app.js
  lines 68-72) only logs, nothing is scheduled. -/
  | closedCleanly
  /-- The consumer callback threw: the exception propagates out of the
  `change` handler uncaught, so the process dies. -/
  | crashed
  /-- No termination signal observed yet; the stream is still live. -/
  | live
deriving DecidableEq

/-- One session consuming its stream's signals (app.js lines 30-72).  On a
change event the consumer callback — the event-consumption logging of
lines 31-33 — runs first, and the token assignment of line 35 executes only
when that callback did not throw; a throw leaves the token untouched and
kills the process.  On an error signal the error handler runs; the stream is
live at that point, so its `closed` flag is `false`.  On a close signal the
close handler only logs.  The stream emits nothing after a terminal signal. -/
def runSession (cb : ChangeEvent → Bool) :
    Option Nat → List StreamSignal → Option Nat × List Action × SessionOutcome
  | token, [] => (token, [], SessionOutcome.live)
  | token, StreamSignal.change ev :: rest =>
    if cb ev then
      let r := runSession cb (some ev.id) rest
      (r.1, Action.deliver ev :: r.2.1, r.2.2)
    else
      (token, [Action.deliver ev], SessionOutcome.crashed)
  | token, StreamSignal.error e :: _ =>
    let r := handleError false token e
    (r.1, r.2, SessionOutcome.retryScheduled)
  | token, StreamSignal.close :: _ =>
    (token, [Action.closedEvent], SessionOutcome.closedCleanly)

/-- App.js lines 22-76, `setupChangeStream`: build the options from the
current token (line 26), open the stream (line 28), then react to the
stream's signals through the registered handlers. -/
def setupChangeStream (cb : ChangeEvent → Bool) (token : Option Nat)
    (signals : List StreamSignal) : Option Nat × List Action × SessionOutcome :=
  let r := runSession cb token signals
  (r.1, Action.subscribe (mkOptions token) :: r.2.1, r.2.2)

/-- The supervisory behaviour across sessions.  When a session ends through
the error handler, the pending `setTimeout` starts the next
`setupChangeStream` with the token the handler left behind.  A clean close
schedules nothing (the close handler of lines 68-72 only logs), and a
callback crash kills the process, so in both of those cases — and when the
stream is simply still live — no further subscribe call happens. -/
def runSessions (cb : ChangeEvent → Bool) :
    Option Nat → List (List StreamSignal) → Option Nat × List Action
  | token, [] => (token, [])
  | token, sc :: rest =>
    let r := setupChangeStream cb token sc
    match r.2.2 with
    | SessionOutcome.retryScheduled =>
      let r2 := runSessions cb r.1 rest
      (r2.1, r.2.1 ++ r2.2)
    | _ => (r.1, r.2.1)

/-- App.js lines 114-118, the SIGINT/SIGTERM handler: disconnect mongoose —
a rejection of the disconnect call is caught on line 117 and only logged —
then exit the process.  The active change stream is not touched.
`disconnectFails` says whether the disconnect call rejects. -/
def cleanup (disconnectFails : Bool) : List Action :=
  [Action.disconnect]
    ++ (if disconnectFails then [Action.logDisconnectError] else [])
    ++ [Action.exitProcess]

/-- Interleavings of the pending 5000 ms retry timer (app.js line 64) with a
termination signal that arrives while the timer is pending.  The code never
cancels the timer (there is no `clearTimeout` and no stop flag), so what
prevents the timer callback from running is only the process exiting first:
either `process.exit(0)` runs before the timer falls due, or the timer falls
due while the cleanup handler is still awaiting `mongoose.disconnect()`, in
which case the event loop runs the timer callback — `setupChangeStream`,
whose `watch` call starts a new subscription attempt — before the exit. -/
inductive StopInterleaving
  | exitBeforeTimer
  | timerDuringCleanup
deriving DecidableEq

/-- The action trace of a stop request that arrives during the retry wait,
for each possible interleaving. -/
def stopDuringWait (cb : ChangeEvent → Bool) (token : Option Nat)
    (signals : List StreamSignal) (disconnectFails : Bool) :
    StopInterleaving → List Action
  | StopInterleaving.exitBeforeTimer => cleanup disconnectFails
  | StopInterleaving.timerDuringCleanup =>
    [Action.disconnect] ++ (setupChangeStream cb token signals).2.1
      ++ (if disconnectFails then [Action.logDisconnectError] else [])
      ++ [Action.exitProcess]

/-- Tests whether an action is a subscribe call. -/
def isSubscribe : Action → Bool
  | Action.subscribe _ => true
  | _ => false

/-- Tests whether an action completes the closure of the open stream: either
the program's own `close()` call or the store-initiated close event. -/
def isStreamClosure : Action → Bool
  | Action.closeStream => true
  | Action.closedEvent => true
  | _ => false

/-- Extracts the delay of a scheduled retry, if the action is one. -/
def scheduleDelay : Action → Option Nat
  | Action.scheduleRetry d => some d
  | _ => none

/-- The three failure dispositions of the design. -/
inductive Disposition
  | transient
  | historyLost
  | fatal
deriving DecidableEq

/-- Error codes that the source's own comment (app.js lines 46-48) lists as
the common resumable connectivity failures: HostUnreachable, HostNotFound,
NetworkTimeout, ShutdownInProgress, PrimarySteppedDown, ExceededTimeLimit,
NotPrimaryOrSecondary, NotPrimaryNoSecondaryOk. -/
def transientCodes : List Nat := [6, 7, 89, 91, 189, 262, 13436, 13435]

/-- Modelled from the spec: the `ErrorClassifier` of spec section 4.1 is
absent from the code — the error handler only tests for history loss.  Per
the spec, history loss maps to `HistoryLost`, recognized connectivity
failures to `Transient`, and everything else (authorization failure,
malformed filter, ...) to `Fatal`. -/
def specClassify (e : MongoError) : Disposition :=
  if e.codeName = historyLostCodeName then Disposition.historyLost
  else if e.code ∈ transientCodes then Disposition.transient
  else Disposition.fatal

/-- A concrete `Fatal` failure: a MongoDB authorization error
(code 13, Unauthorized). -/
def authError : MongoError :=
  { code := 13, codeName := "Unauthorized", message := "not authorized on db" }

/-- A concrete `Transient` failure: a network timeout (code 89). -/
def netError : MongoError :=
  { code := 89, codeName := "NetworkTimeout", message := "connection timed out" }

/-- A concrete `HistoryLost` failure (code 286). -/
def historyLostError : MongoError :=
  { code := 286, codeName := "ChangeStreamHistoryLost",
    message := "resume point no longer in the oplog" }

/-! Claim theorems. -/

/-- C10: for every subscription attempt, the options passed to the watch call
contain a `resumeAfter` key exactly when the checkpoint is non-none: with no
checkpoint the options are the empty object (the key is absent, not null),
and with a stored token the options are exactly the object holding that token. -/
theorem subscribe_options_resumeAfter_iff (cb : ChangeEvent → Bool)
    (token : Option Nat) (signals : List StreamSignal) :
    ((setupChangeStream cb token signals).2.1).head? =
      some (Action.subscribe (mkOptions token)) ∧
    resumeAfterKey (mkOptions token) = token ∧
    mkOptions none = SubscribeOptions.empty := by
  refine ⟨rfl, ?_, rfl⟩
  cases token <;> rfl

/-- C1: after an error whose codeName is not ChangeStreamHistoryLost — in
particular any Transient connectivity failure — occurring while the
checkpoint holds a token, the error handler keeps that token, and the next
subscription attempt it schedules is issued with options resuming after
exactly that token, never with the empty options. -/
theorem transient_error_resumes_from_checkpoint
    (pk : Nat) (e : MongoError) (h : e.codeName ≠ historyLostCodeName)
    (b : Bool) (cb : ChangeEvent → Bool) (signals : List StreamSignal) :
    (handleError b (some pk) e).1 = some pk ∧
    ((setupChangeStream cb (handleError b (some pk) e).1 signals).2.1).head? =
      some (Action.subscribe (SubscribeOptions.withResumeAfter pk)) := by
  have h1 : (handleError b (some pk) e).1 = some pk := by
    simp [handleError, classifyStep, h]
  exact ⟨h1, by rw [h1]; rfl⟩

/-- Witness for C1 at a concrete transient failure (NetworkTimeout, code 89)
with checkpoint 7. -/
theorem transient_error_resumes_from_checkpoint_witness :
    (handleError false (some 7) netError).1 = some 7 ∧
    ((setupChangeStream (fun _ => true) (handleError false (some 7) netError).1
        []).2.1).head? =
      some (Action.subscribe (SubscribeOptions.withResumeAfter 7)) :=
  transient_error_resumes_from_checkpoint 7 netError (by decide) false
    (fun _ => true) []

/-- C2: after an error classified as history loss, the error handler resets
the checkpoint to none before the retry, emits the warning-level signal
exactly once, and the next subscription attempt is issued with the empty
options (no resumeAfter). -/
theorem historyLost_resets_and_warns_once
    (token : Option Nat) (e : MongoError) (h : e.codeName = historyLostCodeName)
    (b : Bool) (cb : ChangeEvent → Bool) (signals : List StreamSignal) :
    (handleError b token e).1 = none ∧
    (handleError b token e).2.count Action.warnHistoryLost = 1 ∧
    ((setupChangeStream cb (handleError b token e).1 signals).2.1).head? =
      some (Action.subscribe SubscribeOptions.empty) := by
  have h1 : (handleError b token e).1 = none := by
    simp [handleError, classifyStep, h]
  refine ⟨h1, ?_, by rw [h1]; rfl⟩
  cases b <;> simp [handleError, classifyStep, h]

/-- Witness for C2 at the concrete history-loss error with checkpoint 9. -/
theorem historyLost_resets_and_warns_once_witness :
    (handleError false (some 9) historyLostError).1 = none ∧
    (handleError false (some 9) historyLostError).2.count
      Action.warnHistoryLost = 1 ∧
    ((setupChangeStream (fun _ => true)
        (handleError false (some 9) historyLostError).1 []).2.1).head? =
      some (Action.subscribe SubscribeOptions.empty) :=
  historyLost_resets_and_warns_once (some 9) historyLostError (by decide) false
    (fun _ => true) []

/-- C3 counterexample: on a Fatal-classified failure (an authorization error,
code 13 Unauthorized, which is neither history loss nor a recognized
connectivity failure) the program does not stop: it keeps the checkpoint,
schedules a retry after 5000 ms, and a further subscription attempt is issued
— the full trace ends in a second subscribe call. -/
theorem fatal_error_retried_counterexample :
    specClassify authError = Disposition.fatal ∧
    (runSessions (fun _ => true) (some 7)
        [[StreamSignal.error authError], []]).2 =
      [Action.subscribe (SubscribeOptions.withResumeAfter 7), Action.warnRetry,
       Action.closeStream, Action.scheduleRetry 5000,
       Action.subscribe (SubscribeOptions.withResumeAfter 7)] := by
  decide

/-- C3 amended: an error with Fatal disposition is handled exactly like a
Transient one — the checkpoint is kept and a retry is scheduled after the
fixed delay; the scheduler never transitions to a stopped state on an error
and the terminal cause is only logged, not surfaced. -/
theorem fatal_treated_as_transient (token : Option Nat) (e : MongoError)
    (h : specClassify e = Disposition.fatal) (b : Bool) :
    (handleError b token e).1 = token ∧
    Action.scheduleRetry retryDelayMs ∈ (handleError b token e).2 := by
  have hname : e.codeName ≠ historyLostCodeName := by
    intro hc
    simp [specClassify, hc] at h
  constructor
  · simp [handleError, classifyStep, hname]
  · cases b <;> simp [handleError, classifyStep, hname]

/-- Witness for the amended C3 at the concrete authorization error with
checkpoint 3. -/
theorem fatal_treated_as_transient_witness :
    (handleError false (some 3) authError).1 = some 3 ∧
    Action.scheduleRetry retryDelayMs ∈ (handleError false (some 3) authError).2 :=
  fatal_treated_as_transient (some 3) authError (by decide) false

/-- C4: over any error-free session in which every delivered event is
processed successfully, the checkpoint after the last event equals the last
event's position (and it is left untouched when no event arrived). -/
theorem checkpoint_equals_last_position (token : Option Nat)
    (evs : List ChangeEvent) :
    (runSession (fun _ => true) token (evs.map StreamSignal.change)).1 =
      (match evs.getLast? with
       | some ev => some ev.id
       | none => token) := by
  induction evs generalizing token with
  | nil => rfl
  | cons ev rest ih =>
    cases rest with
    | nil => rfl
    | cons e2 r2 =>
      have h2 := ih (some ev.id)
      simpa [runSession] using h2

/-- C7 counterexample: a session that terminates with a clean close (the
close event, no error) while the checkpoint is 4 produces a trace with
exactly one subscribe call and no scheduled retry — no new subscription is
issued afterwards, even though further time is available. -/
theorem clean_close_no_resubscribe_counterexample :
    (runSessions (fun _ => true) (some 4) [[StreamSignal.close], []]).2 =
      [Action.subscribe (SubscribeOptions.withResumeAfter 4),
       Action.closedEvent] ∧
    ((runSessions (fun _ => true) (some 4)
        [[StreamSignal.close], []]).2).countP isSubscribe = 1 ∧
    ((runSessions (fun _ => true) (some 4)
        [[StreamSignal.close], []]).2).filterMap scheduleDelay = [] := by
  decide

/-- C7 amended: on a clean close the checkpoint is retained, but nothing is
resumed: the close handler only logs, so no retry is scheduled and no further
subscription attempt is ever issued — re-establishment happens only through
the error handler. -/
theorem clean_close_keeps_checkpoint_without_resubscribe
    (cb : ChangeEvent → Bool) (token : Option Nat)
    (more : List (List StreamSignal)) :
    (runSessions cb token ([StreamSignal.close] :: more)).1 = token ∧
    ((runSessions cb token ([StreamSignal.close] :: more)).2).countP
      isSubscribe = 1 ∧
    ((runSessions cb token ([StreamSignal.close] :: more)).2).filterMap
      scheduleDelay = [] := by
  refine ⟨rfl, ?_, ?_⟩ <;>
    simp [runSessions, setupChangeStream, runSession, isSubscribe,
      scheduleDelay]

/-- Evaluation of a session whose callback succeeds on a list of events and
then throws on the next delivered event: the resulting token is the fold of
the successful assignments of app.js line 35. -/
theorem runSession_crash_eval (cb : ChangeEvent → Bool)
    (bad : ChangeEvent) (rest : List StreamSignal) (hbad : cb bad = false) :
    ∀ (good : List ChangeEvent) (token : Option Nat),
      (∀ ev ∈ good, cb ev = true) →
    runSession cb token
        (good.map StreamSignal.change ++ StreamSignal.change bad :: rest) =
      (good.foldl (fun _ ev => some ev.id) token,
       good.map Action.deliver ++ [Action.deliver bad],
       SessionOutcome.crashed) := by
  intro good
  induction good with
  | nil =>
    intro token _
    simp [runSession, hbad]
  | cons ev g ih =>
    intro token hgood
    have hev : cb ev = true := hgood ev (by simp)
    have ihh := ih (some ev.id) (fun e he => hgood e (by simp [he]))
    simp [runSession, hev, ihh]

/-- The fold of the successive token assignments equals the last position of
the list, or the starting token when no event was processed. -/
theorem foldl_token_eq_getLast? (good : List ChangeEvent) (token : Option Nat) :
    good.foldl (fun _ ev => some ev.id) token =
      (match good.getLast? with
       | some ev => some ev.id
       | none => token) := by
  induction good generalizing token with
  | nil => rfl
  | cons ev g ih =>
    cases g with
    | nil => rfl
    | cons e2 g2 => simpa using ih (some ev.id)

/-- C5: events are delivered to the consumer callback synchronously in order;
the checkpoint advances to an event's position only when the callback
succeeded on it, and when the callback throws on some event the checkpoint
stays at the last successfully processed position, the session terminates
(uncaught exception), and no further subscription attempt is issued. -/
theorem callback_failure_keeps_checkpoint (cb : ChangeEvent → Bool)
    (good : List ChangeEvent) (bad : ChangeEvent) (rest : List StreamSignal)
    (more : List (List StreamSignal)) (token : Option Nat)
    (hgood : ∀ ev ∈ good, cb ev = true) (hbad : cb bad = false) :
    (runSession cb token
        (good.map StreamSignal.change ++ StreamSignal.change bad :: rest)).2.1 =
      good.map Action.deliver ++ [Action.deliver bad] ∧
    (runSession cb token
        (good.map StreamSignal.change ++ StreamSignal.change bad :: rest)).1 =
      (match good.getLast? with
       | some ev => some ev.id
       | none => token) ∧
    (runSession cb token
        (good.map StreamSignal.change ++ StreamSignal.change bad :: rest)).2.2 =
      SessionOutcome.crashed ∧
    ((runSessions cb token
        ((good.map StreamSignal.change ++ StreamSignal.change bad :: rest)
          :: more)).2).countP isSubscribe = 1 := by
  have h := runSession_crash_eval cb bad rest hbad good token hgood
  rw [foldl_token_eq_getLast?] at h
  refine ⟨by rw [h], by rw [h], by rw [h], ?_⟩
  simp [runSessions, setupChangeStream, h, isSubscribe, List.countP_cons,
    List.countP_append, List.countP_map, Function.comp]

/-- Witness for C5: callback succeeds on events 1 and 2, throws on event 3;
the checkpoint stays at 2, the trace is the three deliveries in order, and
exactly one subscribe call ever happens. -/
theorem callback_failure_keeps_checkpoint_witness :
    (runSession (fun ev => ev.id != 3) (some 0)
        (([⟨"insert", 1⟩, ⟨"insert", 2⟩] : List ChangeEvent).map
            StreamSignal.change
          ++ StreamSignal.change ⟨"insert", 3⟩ :: [])).2.1 =
      ([⟨"insert", 1⟩, ⟨"insert", 2⟩] : List ChangeEvent).map Action.deliver
        ++ [Action.deliver ⟨"insert", 3⟩] ∧
    (runSession (fun ev => ev.id != 3) (some 0)
        (([⟨"insert", 1⟩, ⟨"insert", 2⟩] : List ChangeEvent).map
            StreamSignal.change
          ++ StreamSignal.change ⟨"insert", 3⟩ :: [])).1 = some 2 ∧
    (runSession (fun ev => ev.id != 3) (some 0)
        (([⟨"insert", 1⟩, ⟨"insert", 2⟩] : List ChangeEvent).map
            StreamSignal.change
          ++ StreamSignal.change ⟨"insert", 3⟩ :: [])).2.2 =
      SessionOutcome.crashed ∧
    ((runSessions (fun ev => ev.id != 3) (some 0)
        ((([⟨"insert", 1⟩, ⟨"insert", 2⟩] : List ChangeEvent).map
              StreamSignal.change
            ++ StreamSignal.change ⟨"insert", 3⟩ :: [])
          :: [])).2).countP isSubscribe = 1 :=
  callback_failure_keeps_checkpoint (fun ev => ev.id != 3)
    [⟨"insert", 1⟩, ⟨"insert", 2⟩] ⟨"insert", 3⟩ [] [] (some 0)
    (by decide) (by decide)

/-- C6 counterexample: there is an interleaving in which a stop request
arrives while the 5000 ms retry timer is pending and the next subscription
attempt still starts — the timer is never cancelled, so when it falls due
while the cleanup handler is awaiting the disconnect, the timer callback runs
`setupChangeStream` and a subscribe call happens before the process exits. -/
theorem stop_during_wait_counterexample :
    (stopDuringWait (fun _ => true) (some 5) [] false
        StopInterleaving.timerDuringCleanup).countP isSubscribe = 1 ∧
    (stopDuringWait (fun _ => true) (some 5) [] false
        StopInterleaving.timerDuringCleanup) =
      [Action.disconnect,
       Action.subscribe (SubscribeOptions.withResumeAfter 5),
       Action.exitProcess] := by
  decide

/-- C6 amended: the scheduled wait before a re-subscription is always exactly
the fixed 5000 ms interval, hence at least the configured interval; a stop
request that arrives during the wait prevents the next subscription attempt
only in the interleaving where the process exits before the timer falls due
— the timer itself is never cancelled. -/
theorem retry_wait_fixed_and_stop_races (token : Option Nat) (e : MongoError)
    (b : Bool) (cb : ChangeEvent → Bool) (signals : List StreamSignal)
    (df : Bool) :
    ((handleError b token e).2.filterMap scheduleDelay = [retryDelayMs] ∧
      fixedRetryIntervalMs ≤ retryDelayMs) ∧
    (stopDuringWait cb token signals df
        StopInterleaving.exitBeforeTimer).countP isSubscribe = 0 := by
  refine ⟨⟨?_, le_refl _⟩, ?_⟩
  · by_cases hc : e.codeName = historyLostCodeName <;>
      cases b <;> simp [handleError, classifyStep, hc, scheduleDelay]
  · cases df <;> simp [stopDuringWait, cleanup, isSubscribe]

/-- C9 counterexample: the termination handler's action trace contains no
closing of the active change stream at all — it disconnects mongoose and
exits, whether or not the disconnect rejects — so the currently active
session is not closed before process exit. -/
theorem shutdown_skips_session_close_counterexample :
    cleanup false = [Action.disconnect, Action.exitProcess] ∧
    (cleanup false).countP isStreamClosure = 0 ∧
    (cleanup true).countP isStreamClosure = 0 := by
  decide

/-- C9 amended: on an external termination request the handler releases the
store connection, initiates no new subscription, and reaches process exit
even when the disconnect call rejects (the rejection is caught and logged),
so invoking it a second time cannot throw either; but the active session is
not explicitly closed before exit. -/
theorem shutdown_disconnects_and_exits (df : Bool) :
    (cleanup df).countP isSubscribe = 0 ∧
    Action.disconnect ∈ cleanup df ∧
    (cleanup df).getLast? = some Action.exitProcess ∧
    (cleanup df).countP isStreamClosure = 0 := by
  cases df <;> decide

/-- Splitting an initial segment of an appended list: it is an initial
segment of the first part, or it covers the first part entirely and its
remainder is an initial segment of the second part. -/
theorem init_append_split {α : Type} {p a b : List α} (h : p <+: a ++ b) :
    p <+: a ∨ ∃ q, p = a ++ q ∧ q <+: b := by
  induction a generalizing p with
  | nil => exact Or.inr ⟨p, rfl, h⟩
  | cons x xs ih =>
    cases p with
    | nil => exact Or.inl ⟨x :: xs, rfl⟩
    | cons y ys =>
      obtain ⟨t, ht⟩ := h
      rw [List.cons_append, List.cons_append] at ht
      injection ht with h1 h2
      rcases ih ⟨t, h2⟩ with hleft | ⟨q, hq, hqb⟩
      · obtain ⟨u, hu⟩ := hleft
        exact Or.inl ⟨u, by rw [List.cons_append, hu, h1]⟩
      · exact Or.inr ⟨q, by rw [List.cons_append, hq, h1], hqb⟩

/-- The trace of a single session body (everything after its subscribe call)
never contains a subscribe call: only the pending `setTimeout` of the error
handler can lead to one, in the next session. -/
theorem runSession_trace_no_subscribe (cb : ChangeEvent → Bool) :
    ∀ (signals : List StreamSignal) (token : Option Nat),
    ((runSession cb token signals).2.1).countP isSubscribe = 0 := by
  intro signals
  induction signals with
  | nil => intro token; rfl
  | cons s rest ih =>
    intro token
    cases s with
    | change ev =>
      cases hc : cb ev <;>
        simp [runSession, hc, ih, isSubscribe, List.countP_cons]
    | error e =>
      by_cases hc : e.codeName = historyLostCodeName <;>
        simp [runSession, handleError, classifyStep, hc, isSubscribe]
    | close => simp [runSession, isSubscribe]

/-- A session that ends through the error handler has completed a closure of
its stream inside its own trace — app.js line 61 awaits the close before the
`setTimeout` of line 64. -/
theorem runSession_trace_closure_of_retry (cb : ChangeEvent → Bool) :
    ∀ (signals : List StreamSignal) (token : Option Nat),
    (runSession cb token signals).2.2 = SessionOutcome.retryScheduled →
    1 ≤ ((runSession cb token signals).2.1).countP isStreamClosure := by
  intro signals
  induction signals with
  | nil => intro token h; simp [runSession] at h
  | cons s rest ih =>
    intro token h
    cases s with
    | change ev =>
      cases hc : cb ev with
      | true =>
        have h' : (runSession cb (some ev.id) rest).2.2 =
            SessionOutcome.retryScheduled := by
          simpa [runSession, hc] using h
        have hrec := ih (some ev.id) h'
        simpa [runSession, hc, List.countP_cons, isStreamClosure] using hrec
      | false => simp [runSession, hc] at h
    | error e =>
      by_cases hc : e.codeName = historyLostCodeName <;>
        simp [runSession, handleError, classifyStep, hc, isStreamClosure]
    | close => simp [runSession] at h

/-- Bound for an initial segment of a single-session trace: it contains at
most one subscribe call. -/
theorem count_bound_single_session (p body : List Action)
    (opts : SubscribeOptions) (hbody : body.countP isSubscribe = 0)
    (hp : p <+: Action.subscribe opts :: body) :
    p.countP isSubscribe ≤ p.countP isStreamClosure + 1 := by
  obtain ⟨t, ht⟩ := hp
  cases p with
  | nil => simp
  | cons a q =>
    rw [List.cons_append] at ht
    injection ht with h1 h2
    subst h1
    have hqb : q <+: body := ⟨t, h2⟩
    have hq : q.countP isSubscribe ≤ body.countP isSubscribe :=
      List.Sublist.countP_le _ hqb.sublist
    have e1 : (Action.subscribe opts :: q).countP isSubscribe =
        q.countP isSubscribe + 1 := by
      simp [List.countP_cons, isSubscribe]
    have e2 : (Action.subscribe opts :: q).countP isStreamClosure =
        q.countP isStreamClosure := by
      simp [List.countP_cons, isStreamClosure]
    omega

/-- C8: in every reachable point of the supervisory loop's trace — every
initial segment, over any starting checkpoint and any session scripts — the
number of subscribe calls exceeds the number of completed stream closures by
at most one: session N is fully closed before session N+1 opens, so at most
one change stream is ever open. -/
theorem at_most_one_session_open (cb : ChangeEvent → Bool) :
    ∀ (scripts : List (List StreamSignal)) (token : Option Nat)
      (p : List Action), p <+: (runSessions cb token scripts).2 →
    p.countP isSubscribe ≤ p.countP isStreamClosure + 1 := by
  intro scripts
  induction scripts with
  | nil =>
    intro token p hp
    obtain ⟨t, ht⟩ := hp
    have hnil : p = [] := (List.append_eq_nil.mp ht).1
    subst hnil
    simp
  | cons sc rest ih =>
    intro token p hp
    cases hout : (runSession cb token sc).2.2 with
    | retryScheduled =>
      have htr : (runSessions cb token (sc :: rest)).2 =
          Action.subscribe (mkOptions token) ::
            ((runSession cb token sc).2.1
              ++ (runSessions cb (runSession cb token sc).1 rest).2) := by
        simp [runSessions, setupChangeStream, hout]
      rw [htr] at hp
      obtain ⟨t, ht⟩ := hp
      cases p with
      | nil => simp
      | cons a q =>
        rw [List.cons_append] at ht
        injection ht with h1 h2
        subst h1
        have hq : q <+: (runSession cb token sc).2.1
            ++ (runSessions cb (runSession cb token sc).1 rest).2 := ⟨t, h2⟩
        have e1 : (Action.subscribe (mkOptions token) :: q).countP isSubscribe =
            q.countP isSubscribe + 1 := by
          simp [List.countP_cons, isSubscribe]
        have e2 : (Action.subscribe (mkOptions token) :: q).countP
            isStreamClosure = q.countP isStreamClosure := by
          simp [List.countP_cons, isStreamClosure]
        rcases init_append_split hq with hqa | ⟨q2, hq2, hq2b⟩
        · have hsub : q.countP isSubscribe ≤
              ((runSession cb token sc).2.1).countP isSubscribe :=
            List.Sublist.countP_le _ hqa.sublist
          have hzero := runSession_trace_no_subscribe cb sc token
          omega
        · subst hq2
          have hzero := runSession_trace_no_subscribe cb sc token
          have hclose := runSession_trace_closure_of_retry cb sc token hout
          have hrec := ih (runSession cb token sc).1 q2 hq2b
          have e3 : ((runSession cb token sc).2.1 ++ q2).countP isSubscribe =
              ((runSession cb token sc).2.1).countP isSubscribe
                + q2.countP isSubscribe := List.countP_append _ _ _
          have e4 : ((runSession cb token sc).2.1 ++ q2).countP
              isStreamClosure =
              ((runSession cb token sc).2.1).countP isStreamClosure
                + q2.countP isStreamClosure := List.countP_append _ _ _
          omega
    | closedCleanly =>
      have htr : (runSessions cb token (sc :: rest)).2 =
          Action.subscribe (mkOptions token) :: (runSession cb token sc).2.1 := by
        simp [runSessions, setupChangeStream, hout]
      rw [htr] at hp
      exact count_bound_single_session p _ _
        (runSession_trace_no_subscribe cb sc token) hp
    | crashed =>
      have htr : (runSessions cb token (sc :: rest)).2 =
          Action.subscribe (mkOptions token) :: (runSession cb token sc).2.1 := by
        simp [runSessions, setupChangeStream, hout]
      rw [htr] at hp
      exact count_bound_single_session p _ _
        (runSession_trace_no_subscribe cb sc token) hp
    | live =>
      have htr : (runSessions cb token (sc :: rest)).2 =
          Action.subscribe (mkOptions token) :: (runSession cb token sc).2.1 := by
        simp [runSessions, setupChangeStream, hout]
      rw [htr] at hp
      exact count_bound_single_session p _ _
        (runSession_trace_no_subscribe cb sc token) hp

/-- Witness for C8 on a concrete two-session run — a transient error then a
live second session — checking the bound on the full trace as its own initial
segment. -/
theorem at_most_one_session_open_witness :
    (runSessions (fun _ => true) (some 2)
        [[StreamSignal.error netError], []]).2.countP isSubscribe ≤
      (runSessions (fun _ => true) (some 2)
        [[StreamSignal.error netError], []]).2.countP isStreamClosure + 1 :=
  at_most_one_session_open (fun _ => true)
    [[StreamSignal.error netError], []] (some 2)
    (runSessions (fun _ => true) (some 2)
      [[StreamSignal.error netError], []]).2
    ⟨[], by simp⟩

end App
